import Mathlib

/-!
Verification of the D-RATS main-window mediator (`d_rats/mainwindow.py`)
against its natural-language specification.

The Python source is shallowly embedded: each handler becomes a pure Lean
function from its inputs (configuration flags, dialog results, the current
state) to an explicit result state and/or a list of emitted effects.  GTK
collaborators (status bar stacks, signal emissions, sound playback, the
urgency hint) are modelled as explicit data.  Wall-clock time is modelled
as a rational number threaded through the handlers.
-/

namespace DRats

/-! ## Tab registry and page-index resolution

`MainWindow.__init__` builds `self.tabs` with the five keys below, in this
insertion order.  `_page_name` resolves a notebook page index through the
fixed table `tab_labels`; a Python list index out of range raises, which the
embedding renders as `none`. -/

/-- Insertion-ordered keys of `self.tabs` as built in `MainWindow.__init__`. -/
def registry_keys : List String :=
  ["chat", "messages", "event", "files", "stations"]

/-- The fixed display-order table `tab_labels` inside `_page_name`. -/
def tab_labels : List String :=
  ["messages", "chat", "files", "event"]

/-- Embedding of `_page_name(index)`: `tab_labels[index]`, with Python's
`IndexError` on an out-of-range index rendered as `none`. -/
def page_name (index : Nat) : Option String :=
  tab_labels[index]?

/-- A lifecycle call made on a tab object by the tab-switch handler. -/
inductive LifecycleCall where
  | deselected (key : String)
  | selected (key : String)
deriving DecidableEq, Repr

/-- Embedding of `_tab_switched(_tabs, _page, page_num)`: resolve the index
to a key, call `deselected()` on the current tab, update the current tab,
call `selected()` on it.  Returns the new current key and the lifecycle
calls in order; `none` when the index lookup raises. -/
def tab_switched (current : String) (page_num : Nat) :
    Option (String × List LifecycleCall) :=
  match page_name page_num with
  | none => none
  | some tab =>
      some (tab, [LifecycleCall.deselected current, LifecycleCall.selected tab])

/-- Deliver a sequence of tab-switch events, accumulating lifecycle calls. -/
def run_switches : String → List Nat → Option (String × List LifecycleCall)
  | cur, [] => some (cur, [])
  | cur, i :: rest =>
      match tab_switched cur i with
      | none => none
      | some (t, calls) =>
          match run_switches t rest with
          | none => none
          | some (fin, more) => some (fin, calls ++ more)

/-- Resolve every page index of a sequence through `page_name`. -/
def resolve_all : List Nat → Option (List String)
  | [] => some []
  | i :: rest =>
      match page_name i, resolve_all rest with
      | some t, some ts => some (t :: ts)
      | _, _ => none

/-- The lifecycle-call trace the handler produces along a key sequence:
one `deselected` on the outgoing key immediately followed by one
`selected` on the incoming key, per event. -/
def switch_trace : String → List String → List LifecycleCall
  | _, [] => []
  | cur, t :: rest =>
      LifecycleCall.deselected cur :: LifecycleCall.selected t ::
        switch_trace t rest

/-- The current key after a sequence of resolved switches. -/
def final_tab : String → List String → String
  | cur, [] => cur
  | _, t :: rest => final_tab t rest

end DRats

namespace DRats

/-! ## Theorems about tab switching (C1, C9, C10) -/

/-- C1 (counterexample): with current tab "messages", a tab-switch event
whose page index 0 resolves to the already-current key "messages" is NOT
skipped: the handler still invokes `deselected()` and then `selected()` on
that same key, contradicting the claimed no-call self-transition. -/
theorem self_switch_not_skipped :
    page_name 0 = some "messages" ∧
    tab_switched "messages" 0 ≠ some ("messages", []) ∧
    tab_switched "messages" 0 =
      some ("messages",
        [LifecycleCall.deselected "messages",
         LifecycleCall.selected "messages"]) := by
  refine ⟨rfl, ?_, rfl⟩
  decide

/-- C1 (amended): for every sequence of tab-switch events whose page indices
all resolve, the accumulated lifecycle calls are exactly, per event, one
`deselected()` on the previously-current tab immediately (hence strictly)
before one `selected()` on the newly-current tab — including when the
resolved key equals the current key, where the transition is not skipped. -/
theorem switch_lifecycle (cur : String) (evs : List Nat) (ts : List String)
    (h : resolve_all evs = some ts) :
    run_switches cur evs = some (final_tab cur ts, switch_trace cur ts) := by
  induction evs generalizing cur ts with
  | nil =>
      simp only [resolve_all, Option.some.injEq] at h
      subst h
      rfl
  | cons i rest ih =>
      simp only [resolve_all] at h
      rcases hp : page_name i with _ | t
      · rw [hp] at h; cases h
      · rw [hp] at h
        rcases hr : resolve_all rest with _ | ts'
        · rw [hr] at h; cases h
        · rw [hr] at h
          simp only [Option.some.injEq] at h
          subst h
          simp only [run_switches, tab_switched, hp, ih t ts' hr,
            final_tab, switch_trace]
          rfl

/-- C1 (witness for the amended theorem). -/
theorem switch_lifecycle_witness :
    run_switches "messages" [1, 1] =
      some ("chat",
        [LifecycleCall.deselected "messages", LifecycleCall.selected "chat",
         LifecycleCall.deselected "chat", LifecycleCall.selected "chat"]) :=
  switch_lifecycle "messages" [1, 1] ["chat", "chat"] rfl

/-- C9 (counterexample): the registry key set is NOT disjoint from the fixed
display-order table — the key "messages" belongs to both. -/
theorem registry_table_not_disjoint :
    "messages" ∈ registry_keys ∧ "messages" ∈ tab_labels ∧
    ¬ List.Disjoint registry_keys tab_labels := by
  refine ⟨by decide, by decide, fun h => ?_⟩
  exact h (a := "messages") (by decide) (by decide)

/-- C9 (amended): every key of the fixed display-order table is a key of
the tab registry (the table is a subset of the registry keys, so page-index
resolution always yields a registered tab); both are fixed constant tables,
built once at construction and never mutated. -/
theorem table_subset_registry :
    ∀ t ∈ tab_labels, t ∈ registry_keys := by
  decide

/-- C9 (witness for the amended theorem). -/
theorem table_subset_registry_witness :
    "chat" ∈ tab_labels ∧ "chat" ∈ registry_keys :=
  ⟨by decide, table_subset_registry "chat" (by decide)⟩

/-- C10: page-index resolution is defined only for indices 0 through 3 over
the four-entry table: every index above 3 fails the lookup (Python raises,
embedded as `none`); no index ever resolves to the registered key
"stations", so "stations" can never become the current tab through a
tab-switch event. -/
theorem page_resolution_bounds :
    (∀ i : Nat, 3 < i → page_name i = none) ∧
    (∀ i : Nat, page_name i ≠ some "stations") ∧
    "stations" ∈ registry_keys ∧
    (∀ (cur t : String) (i : Nat) (calls : List LifecycleCall),
      tab_switched cur i = some (t, calls) → t ≠ "stations") := by
  have hnone : ∀ i : Nat, 3 < i → page_name i = none := by
    intro i hi
    have : tab_labels.length ≤ i := hi
    simpa [page_name] using List.getElem?_eq_none this
  have hns : ∀ i : Nat, page_name i ≠ some "stations" := by
    intro i
    match i with
    | 0 => decide
    | 1 => decide
    | 2 => decide
    | 3 => decide
    | n + 4 =>
        rw [hnone (n + 4) (by omega)]
        exact fun h => Option.noConfusion h
  refine ⟨hnone, hns, by decide, ?_⟩
  intro cur t i calls hsw ht
  subst ht
  unfold tab_switched at hsw
  rcases hp : page_name i with _ | tb
  · rw [hp] at hsw; cases hsw
  · rw [hp] at hsw
    simp only [Option.some.injEq, Prod.mk.injEq] at hsw
    exact hns i (hsw.1 ▸ hp)

/-- C10 (witness). -/
theorem page_resolution_bounds_witness :
    page_name 4 = none ∧ page_name 1 ≠ some "stations" :=
  ⟨page_resolution_bounds.1 4 (by decide), page_resolution_bounds.2.1 1⟩

/-! ## Status bar controller (`set_status`, `__update_status`)

The GTK status bar is a stack of messages per context id; `pop` removes the
top message, `push` adds one.  Both `set_status` and `__update_status` use
the single context "default" for the status region, and `set_status` also
uses context 0 of the call bar.  `time.time()` is threaded through as a
rational `now`; `self.__last_status` is the recorded timestamp. -/

/-- State of the status/identity region owned by the controller. -/
structure StatusState where
  last_status : ℚ
  statusbar : List String
  callbar : List String
  title : String
deriving DecidableEq, Repr

/-- GTK `Statusbar.pop` on a single context: remove the top message. -/
def statusbar_pop (stack : List String) : List String :=
  stack.tail

/-- GTK `Statusbar.push` on a single context: add a message on top. -/
def statusbar_push (msg : String) (stack : List String) : List String :=
  msg :: stack

/-- The message a GTK status bar displays: the top of the stack. -/
def visible_status (s : StatusState) : Option String :=
  s.statusbar.head?

/-- Embedding of `set_status(msg)`: record `now` as `__last_status`, pop
then push the status bar, set the window title from the callsign, and pop
then push the call bar. -/
def set_status (now : ℚ) (msg call : String) (s : StatusState) : StatusState :=
  { last_status := now
    statusbar := statusbar_push msg (statusbar_pop s.statusbar)
    callbar := statusbar_push call (statusbar_pop s.callbar)
    title := "D-RATS: " ++ call }

/-- The interval, in seconds, of `GLib.timeout_add(3000, self.__update_status)`. -/
def status_interval : ℚ := 3

/-- The staleness threshold compared in `__update_status`. -/
def status_threshold : ℚ := 30

/-- Embedding of `__update_status()`: when `now - __last_status > 30`, pop
the status bar; the returned `true` keeps the GLib timer re-arming. -/
def update_status (now : ℚ) (s : StatusState) : StatusState × Bool :=
  (if now - s.last_status > status_threshold then
     { s with statusbar := statusbar_pop s.statusbar }
   else s,
   true)

/-- Run the periodic timer callback at each time of a list in turn. -/
def run_ticks (ts : List ℚ) (s : StatusState) : StatusState :=
  ts.foldl (fun st t => (update_status t st).1) s

/-! Helper lemmas about the timer. -/

theorem update_status_last (now : ℚ) (s : StatusState) :
    ((update_status now s).1).last_status = s.last_status := by
  unfold update_status
  split <;> rfl

theorem run_ticks_last (ts : List ℚ) (s : StatusState) :
    (run_ticks ts s).last_status = s.last_status := by
  induction ts generalizing s with
  | nil => rfl
  | cons t rest ih =>
      simp only [run_ticks, List.foldl_cons] at *
      rw [ih, update_status_last]

theorem update_status_empty (now : ℚ) (s : StatusState)
    (h : s.statusbar = []) : ((update_status now s).1).statusbar = [] := by
  unfold update_status
  split <;> simp [statusbar_pop, h]

theorem run_ticks_empty (ts : List ℚ) (s : StatusState)
    (h : s.statusbar = []) : (run_ticks ts s).statusbar = [] := by
  induction ts generalizing s with
  | nil => exact h
  | cons t rest ih =>
      simp only [run_ticks, List.foldl_cons] at *
      exact ih _ (update_status_empty t s h)

theorem run_ticks_fresh (T : ℚ) (ts : List ℚ) (s : StatusState)
    (hlast : s.last_status = T) (hts : ∀ t ∈ ts, t ≤ T + status_threshold) :
    (run_ticks ts s).statusbar = s.statusbar := by
  induction ts generalizing s with
  | nil => rfl
  | cons t rest ih =>
      simp only [run_ticks, List.foldl_cons] at *
      have hcond : ¬ t - s.last_status > status_threshold := by
        have := hts t (List.mem_cons_self t rest)
        rw [hlast]
        linarith
      have hstep : (update_status t s).1 = s := by
        unfold update_status
        simp [hcond]
      rw [hstep]
      exact ih s hlast fun u hu => hts u (List.mem_cons_of_mem t hu)

theorem run_ticks_stale (T : ℚ) (ts : List ℚ) (s : StatusState) (msg : String)
    (hlast : s.last_status = T) (hbar : s.statusbar = [msg] ∨ s.statusbar = [])
    (hts : ∃ t ∈ ts, T + status_threshold < t) :
    (run_ticks ts s).statusbar = [] := by
  induction ts generalizing s with
  | nil => exact absurd hts (by simp)
  | cons t rest ih =>
      simp only [run_ticks, List.foldl_cons] at *
      by_cases hcond : t - s.last_status > status_threshold
      · have hstep : ((update_status t s).1).statusbar = [] := by
          unfold update_status
          rcases hbar with h | h <;> simp [hcond, statusbar_pop, h]
        exact run_ticks_empty rest _ hstep
      · have hstep : (update_status t s).1 = s := by
          unfold update_status
          simp [hcond]
        rw [hstep]
        rcases hts with ⟨u, hu, hgt⟩
        rcases List.mem_cons.mp hu with hu' | hu'
        · subst hu'
          rw [hlast] at hcond
          exact absurd (by linarith : u - T > status_threshold) hcond
        · exact ih s hlast hbar ⟨u, hu', hgt⟩

/-! ## Theorems about the status bar (C3, C4) -/

/-- C4: `set_status(text)` records `(text, now)` as the live status
message, clears the status region before pushing so that exactly one
message is visible (any prior text replaced), refreshes the identity
banner with the current callsign, and sets the window title to the fixed
product label combined with the callsign. -/
theorem set_status_spec (now : ℚ) (msg call : String) (s : StatusState)
    (hlen : s.statusbar.length ≤ 1) :
    (set_status now msg call s).last_status = now ∧
    (set_status now msg call s).statusbar = [msg] ∧
    visible_status (set_status now msg call s) = some msg ∧
    (set_status now msg call s).callbar.head? = some call ∧
    (set_status now msg call s).title = "D-RATS: " ++ call := by
  have htail : s.statusbar.tail = [] := by
    match hs : s.statusbar with
    | [] => rfl
    | [a] => rfl
    | a :: b :: l => rw [hs] at hlen; simp at hlen
  refine ⟨rfl, ?_, ?_, rfl, rfl⟩
  · simp [set_status, statusbar_push, statusbar_pop, htail]
  · simp [visible_status, set_status, statusbar_push]

/-- C4 (witness). -/
theorem set_status_spec_witness :
    (set_status 7 "sent" "N0CALL" ⟨0, ["old"], [], ""⟩).last_status = 7 ∧
    (set_status 7 "sent" "N0CALL" ⟨0, ["old"], [], ""⟩).statusbar = ["sent"] ∧
    visible_status (set_status 7 "sent" "N0CALL" ⟨0, ["old"], [], ""⟩) =
      some "sent" ∧
    (set_status 7 "sent" "N0CALL" ⟨0, ["old"], [], ""⟩).callbar.head? =
      some "N0CALL" ∧
    (set_status 7 "sent" "N0CALL" ⟨0, ["old"], [], ""⟩).title =
      "D-RATS: " ++ "N0CALL" :=
  set_status_spec 7 "sent" "N0CALL" ⟨0, ["old"], [], ""⟩ (by decide)

/-- C3: the status timer is armed at a 3-time-unit interval; every tick
preserves the recorded timestamp and re-arms the timer; after
`set_status` at time `T` with no further `set_status`, ticks at times at
most `T + 30` leave the text visible, and as soon as some tick falls
strictly after `T + 30` the text is cleared and stays cleared through all
remaining ticks. -/
theorem status_staleness (T : ℚ) (msg call : String) (s : StatusState)
    (ts : List ℚ) (hlen : s.statusbar.length ≤ 1) :
    status_interval = 3 ∧
    (∀ (now : ℚ) (st : StatusState),
      ((update_status now st).1).last_status = st.last_status ∧
      (update_status now st).2 = true) ∧
    (run_ticks ts (set_status T msg call s)).last_status = T ∧
    ((∀ t ∈ ts, t ≤ T + status_threshold) →
      (run_ticks ts (set_status T msg call s)).statusbar = [msg]) ∧
    ((∃ t ∈ ts, T + status_threshold < t) →
      (run_ticks ts (set_status T msg call s)).statusbar = []) := by
  have hbar : (set_status T msg call s).statusbar = [msg] :=
    (set_status_spec T msg call s hlen).2.1
  refine ⟨rfl, fun now st => ⟨update_status_last now st, rfl⟩, ?_, ?_, ?_⟩
  · rw [run_ticks_last]
    rfl
  · intro hts
    rw [run_ticks_fresh T ts _ rfl hts, hbar]
  · intro hts
    exact run_ticks_stale T ts _ msg rfl (Or.inl hbar) hts

/-- C3 (witness): a fresh tick at `T + 30` keeps the text, a stale tick at
`T + 33` clears it. -/
theorem status_staleness_witness :
    (run_ticks [30] (set_status 0 "up" "N0CALL" ⟨0, [], [], ""⟩)).statusbar =
      ["up"] ∧
    (run_ticks [30, 33] (set_status 0 "up" "N0CALL" ⟨0, [], [], ""⟩)).statusbar =
      [] := by
  have h1 := status_staleness 0 "up" "N0CALL" ⟨0, [], [], ""⟩ [30] (by decide)
  have h2 := status_staleness 0 "up" "N0CALL" ⟨0, [], [], ""⟩ [30, 33]
    (by decide)
  constructor
  · refine h1.2.2.2.1 ?_
    intro t ht
    simp only [List.mem_singleton] at ht
    subst ht
    norm_num [status_threshold]
  · refine h2.2.2.2.2 ⟨33, by simp, by norm_num [status_threshold]⟩

/-! ## Notification router (`_maybe_blink`, `_got_focus`)

Configuration reads become functions of the tab key; the handler's effects
on the window and the platform sound service become an ordered effect
list. -/

/-- The configuration values `_maybe_blink` reads for a tab key. -/
structure BlinkConfig where
  blink : String → Bool
  sound_enabled : String → Bool
  sound_file : String → String

/-- An effect the notification router requests. -/
inductive BlinkEffect where
  | setUrgency (hint : Bool)
  | playSound (file : String)
deriving DecidableEq, Repr

/-- Embedding of `_maybe_blink(_tab, key)`: set the urgency hint when the
per-tab blink flag is on and the window is not active; then, unless the
key is "event", play the tab's configured sound when its sound flag is
on. -/
def maybe_blink (cfg : BlinkConfig) (window_active : Bool) (key : String) :
    List BlinkEffect :=
  (if cfg.blink key && !window_active then [BlinkEffect.setUrgency true]
   else []) ++
  (if key == "event" then []
   else if cfg.sound_enabled key then
     [BlinkEffect.playSound (cfg.sound_file key)]
   else [])

/-- Embedding of `_got_focus(_window, _event)`: unconditionally clear the
urgency hint. -/
def got_focus : List BlinkEffect :=
  [BlinkEffect.setUrgency false]

/-! ## Command dialog bridge (`_activate_dq`) -/

/-- GTK dialog run results distinguished by `_activate_dq`. -/
inductive ResponseType where
  | ok
  | cancel
  | deleteEvent
  | close
deriving DecidableEq, Repr

/-- A signal emission performed by `_activate_dq`, over an opaque port
type `P` returned by the get-chat-port handler. -/
inductive DqEmit (P : Type) where
  | getChatPort
  | userSendChat (dest : String) (port : P) (payload : String)
      (broadcast : Bool)
deriving DecidableEq, Repr

/-- Embedding of `_activate_dq(_button)`: when the dialog run returns OK,
emit the synchronous get-chat-port request and then one user-send-chat
with destination "CQCQCQ", the obtained port, payload `"?D*%s?" % d_text`,
and broadcast true; on any other response, emit nothing. -/
def activate_dq (P : Type) (run_status : ResponseType) (d_text : String)
    (chat_port : P) : List (DqEmit P) :=
  match run_status with
  | ResponseType.ok =>
      [DqEmit.getChatPort,
       DqEmit.userSendChat "CQCQCQ" chat_port ("?D*" ++ d_text ++ "?") true]
  | _ => []

/-! ## External process launcher (`_activate_proxy`) -/

/-- Embedding of the argument-list construction in `_activate_proxy`:
prepend `sys.executable` exactly on darwin, then append the fixed
relative path when it exists and the bare name otherwise. -/
def launch_proxy_args (is_darwin : Bool) (executable : String)
    (repeater_exists : Bool) : List String :=
  (if is_darwin then [executable] else []) ++
  [if repeater_exists then "./d-rats_repeater" else "d-rats_repeater"]

/-! ## Window delete handler (`_delete`) -/

/-- The observable outcome of the delete handler: whether geometry was
persisted and whether application quit was invoked.  The handler always
returns True to GTK, so a declined confirmation vetoes the close and the
window keeps running. -/
structure DeleteOutcome where
  geometry_saved : Bool
  quit_called : Bool
deriving DecidableEq, Repr

/-- Embedding of `_delete(window, event)`: when the "confirm exit" option
is set and the user declines the prompt, return early with nothing done;
otherwise persist the window geometry and invoke application quit. -/
def delete_handler (confirm_exit user_confirms : Bool) : DeleteOutcome :=
  if confirm_exit && !user_confirms then
    { geometry_saved := false, quit_called := false }
  else
    { geometry_saved := true, quit_called := true }

/-! ## Theorems about the handlers (C2, C5, C6, C7, C8) -/

/-- C2: confirming the send-query dialog with raw text `t` first emits the
synchronous get-chat-port request and then exactly one user-send-chat
signal with arguments ("CQCQCQ", port, "?D*" ++ t ++ "?", true), the text
passed verbatim; any non-OK response (cancel, close, delete) emits
nothing. -/
theorem dq_policy (P : Type) (t : String) (p : P) :
    activate_dq P ResponseType.ok t p =
      [DqEmit.getChatPort,
       DqEmit.userSendChat "CQCQCQ" p ("?D*" ++ t ++ "?") true] ∧
    (∀ r : ResponseType, r ≠ ResponseType.ok → activate_dq P r t p = []) := by
  refine ⟨rfl, fun r hr => ?_⟩
  cases r with
  | ok => exact absurd rfl hr
  | cancel => rfl
  | deleteEvent => rfl
  | close => rfl

/-- C2 (witness). -/
theorem dq_policy_witness :
    activate_dq Nat ResponseType.ok "ABC" 2 =
      [DqEmit.getChatPort,
       DqEmit.userSendChat "CQCQCQ" 2 ("?D*" ++ "ABC" ++ "?") true] ∧
    activate_dq Nat ResponseType.cancel "ABC" 2 = [] :=
  ⟨(dq_policy Nat "ABC" 2).1,
   (dq_policy Nat "ABC" 2).2 ResponseType.cancel (by decide)⟩

/-- C5: a notice on tab key `k` requests the urgency hint exactly when the
per-tab blink flag is true and the window is not active; regaining focus
always clears the hint. -/
theorem urgency_policy (cfg : BlinkConfig) (active : Bool) (key : String) :
    (BlinkEffect.setUrgency true ∈ maybe_blink cfg active key ↔
      cfg.blink key = true ∧ active = false) ∧
    got_focus = [BlinkEffect.setUrgency false] := by
  refine ⟨?_, rfl⟩
  unfold maybe_blink
  rcases hb : cfg.blink key <;> rcases ha : active <;>
    rcases he : key == "event" <;>
    rcases hs : cfg.sound_enabled key <;>
    simp_all

/-- C5 (witness). -/
theorem urgency_policy_witness :
    BlinkEffect.setUrgency true ∈
      maybe_blink ⟨fun _ => true, fun _ => false, fun _ => ""⟩ false "chat" :=
  (urgency_policy ⟨fun _ => true, fun _ => false, fun _ => ""⟩ false
    "chat").1.mpr ⟨rfl, rfl⟩

/-- C6: a notice on tab key "event" never requests sound playback, for
every configuration and focus state; for every other key, playback of the
tab's configured sound resource is requested exactly when that tab's
sound-enabled flag is true. -/
theorem sound_policy (cfg : BlinkConfig) (active : Bool) (key f : String) :
    (key = "event" → BlinkEffect.playSound f ∉ maybe_blink cfg active key) ∧
    (key ≠ "event" →
      (BlinkEffect.playSound (cfg.sound_file key) ∈
          maybe_blink cfg active key ↔
        cfg.sound_enabled key = true)) := by
  constructor
  · intro hk
    subst hk
    unfold maybe_blink
    rcases hb : cfg.blink "event" <;> rcases ha : active <;> simp_all
  · intro hk
    have he : (key == "event") = false := by
      simpa [beq_iff_eq] using hk
    unfold maybe_blink
    rcases hb : cfg.blink key <;> rcases ha : active <;>
      rcases hs : cfg.sound_enabled key <;>
      simp_all

/-- C6 (witness). -/
theorem sound_policy_witness :
    BlinkEffect.playSound "beep" ∉
      maybe_blink ⟨fun _ => false, fun _ => true, fun _ => "beep"⟩ true
        "event" ∧
    BlinkEffect.playSound "beep" ∈
      maybe_blink ⟨fun _ => false, fun _ => true, fun _ => "beep"⟩ true
        "chat" :=
  ⟨(sound_policy ⟨fun _ => false, fun _ => true, fun _ => "beep"⟩ true
      "event" "beep").1 rfl,
   (sound_policy ⟨fun _ => false, fun _ => true, fun _ => "beep"⟩ true
      "chat" "beep").2 (by decide) |>.mpr rfl⟩

/-- C7: the proxy spawn argument list is a pure function of the platform
and the presence of the fixed relative path: off darwin it is exactly one
binary element with no interpreter prefix; on darwin the interpreter comes
first; the binary element is "./d-rats_repeater" when the relative path
exists and the bare name "d-rats_repeater" otherwise. -/
theorem launch_proxy_policy (executable : String) (repeater_exists : Bool) :
    launch_proxy_args false executable repeater_exists =
      [if repeater_exists then "./d-rats_repeater" else "d-rats_repeater"] ∧
    launch_proxy_args true executable repeater_exists =
      [executable,
       if repeater_exists then "./d-rats_repeater" else "d-rats_repeater"] ∧
    (launch_proxy_args false executable repeater_exists).length = 1 := by
  refine ⟨rfl, rfl, rfl⟩

/-- C8: on a close request, when the confirm-exit option is off, or it is
on and the user accepts, the handler persists geometry and invokes quit;
when the option is on and the user declines, the close is vetoed with no
geometry persisted and no quit. -/
theorem delete_policy (c u : Bool) :
    ((c = false ∨ u = true) →
      delete_handler c u = { geometry_saved := true, quit_called := true }) ∧
    (c = true → u = false →
      delete_handler c u =
        { geometry_saved := false, quit_called := false }) := by
  constructor
  · rintro (hc | hu)
    · subst hc; rfl
    · subst hu; cases c <;> rfl
  · intro hc hu
    subst hc; subst hu
    rfl

/-- C8 (witness). -/
theorem delete_policy_witness :
    delete_handler false false =
      { geometry_saved := true, quit_called := true } ∧
    delete_handler true false =
      { geometry_saved := false, quit_called := false } :=
  ⟨(delete_policy false false).1 (Or.inl rfl),
   (delete_policy true false).2 rfl rfl⟩

end DRats
